import Mathlib

/-!
Verification of the iac-activemq orchestration layer (src/main.go) against its
natural-language specification. Pure fragments of the Go source are embedded
as executable Lean definitions; the external collaborators (JSON decoding,
socket binding, broker connections) appear as explicit parameters so that the
orchestration logic itself is translated faithfully from the source.
-/

set_option autoImplicit false

/-! ## Data model -/

/-- Aggregate health status values (`health.StatusOK`, `health.StatusPartiallyAvailable`,
`health.StatusUnavailable` as used in src/main.go lines 171-179). -/
inductive HealthStatus where
  | statusOK
  | statusPartlyAvail
  | statusUnavailable
deriving DecidableEq, Repr

/-- A value stored in the `map[string]interface\x7b\x7d` result of `CheckServiceStatus`:
either a per-host boolean liveness flag or the overall status. -/
inductive MVal where
  | bool (x : Bool)
  | status (s : HealthStatus)
deriving DecidableEq, Repr

/-- One entry of the global `ActiveMQs` registry (`activemq.ActiveMQ`), restricted to
the two fields `CheckServiceStatus` reads: `Config.Host` and whether `Conn` is
non-nil (src/main.go lines 162-169). -/
structure ActiveMQ where
  host : String
  connPresent : Bool
deriving DecidableEq, Repr

/-- A Go `map[string]interface\x7b\x7d` modelled as a partial function from keys. -/
def GoMap : Type := String → Option MVal

/-- Go map assignment `m[k] = v` (overwrites any previous binding). -/
def mapSet (m : GoMap) (k : String) (v : MVal) : GoMap :=
  fun key => if key = k then some v else m key

/-- The freshly made empty map (`make(map[string]interface\x7b\x7d)`). -/
def emptyMap : GoMap := fun _ => none

/-! ## CheckServiceStatus (src/main.go lines 157-182) -/

/-- The `for` loop of `CheckServiceStatus` (src/main.go lines 162-170): walks the
registry threading the result map, `OKCount` and `UnavailableCount`. -/
def serviceStatusLoop : List ActiveMQ → GoMap → Nat → Nat → GoMap × Nat × Nat
  | [], result, okCount, unavailableCount => (result, okCount, unavailableCount)
  | conn :: rest, result, okCount, unavailableCount =>
    if conn.connPresent then
      serviceStatusLoop rest (mapSet result conn.host (.bool true)) (okCount + 1) unavailableCount
    else
      serviceStatusLoop rest (mapSet result conn.host (.bool false)) okCount (unavailableCount + 1)

/-- `CheckServiceStatus` (src/main.go lines 157-182): builds the host-to-liveness map,
computes the overall status from `OKCount` / `UnavailableCount`, stores it under the
`"OverallStatus"` key and returns it together with the error value, which the source
fixes to `nil` (line 181). -/
def CheckServiceStatus (activeMQs : List ActiveMQ) : GoMap × Option String :=
  let loopOut := serviceStatusLoop activeMQs emptyMap 0 0
  let result := loopOut.1
  let okCount := loopOut.2.1
  let unavailableCount := loopOut.2.2
  let overAllStatus : HealthStatus :=
    if okCount = 0 then .statusUnavailable
    else if unavailableCount > 0 ∧ okCount > 0 then .statusPartlyAvail
    else .statusOK
  (mapSet result "OverallStatus" (.status overAllStatus), none)

/-- Number of registry entries with a present connection handle (the value `OKCount`
reaches at the end of the loop). -/
def liveCount (l : List ActiveMQ) : Nat := l.countP fun c => c.connPresent

/-- Number of registry entries without a connection handle (the value
`UnavailableCount` reaches at the end of the loop). -/
def deadCount (l : List ActiveMQ) : Nat := l.countP fun c => !c.connPresent

/-! ## ConnectionRegistry setup and reload (src/main.go lines 193-226) -/

/-- One element of `activemq.ActiveMQconfigs.ActiveMQs` (`activemq.ActiveMQconfig`),
restricted to the field the orchestration layer observes afterwards: the broker host
identifier. All other per-broker settings are opaque to this layer. -/
structure ActiveMQConfig where
  host : String
deriving DecidableEq, Repr

/-- `activemq.ActiveMQconfigs`: the shared API key and the ordered broker list of the
`activemqconfig.json` artifact. -/
structure ActiveMQConfigs where
  apiKey : String
  activeMQs : List ActiveMQConfig
deriving DecidableEq, Repr

/-- Outcome of `ioutil.ReadFile("activemqconfig.json")` (src/main.go line 202). -/
inductive ReadResult where
  | readError
  | readOk (contents : String)
deriving DecidableEq, Repr

/-- Outcome of `json.Unmarshal` (src/main.go line 210). Go returns an optional error
together with the destination value it populated: on a type error inside an otherwise
well-formed document, `Unmarshal` reports the error but completes decoding the other
fields as best it can, so `value.activeMQs` can be non-empty even when `err` is set;
on an entirely undecodable document the destination keeps its zero value. -/
structure UnmarshalResult where
  err : Option String
  value : ActiveMQConfigs
deriving DecidableEq, Repr

/-- `initializeActiveMQConnection` (src/main.go lines 193-226) as a transformer of the
global `ActiveMQs` registry. `read` is the file-read outcome, `unmarshal` the external
JSON decoder, and `connect` tells whether `NewActiveMQConnectionExternal` produced a
live `Conn` handle for a given broker configuration. On a read error the function
returns before the loop; an unmarshal error is only logged (line 212, no return), and
the construction loop then appends one registry entry per decoded broker. -/
def initializeActiveMQConnection (read : ReadResult)
    (unmarshal : String → UnmarshalResult)
    (connect : ActiveMQConfig → Bool)
    (registry : List ActiveMQ) : List ActiveMQ :=
  match read with
  | .readError => registry
  | .readOk contents =>
      (unmarshal contents).value.activeMQs.foldl
        (fun acc cfg => acc ++ [⟨cfg.host, connect cfg⟩]) registry

/-! ## MonitorServer handlers (src/main.go lines 405-452) -/

/-- An HTTP request as the two handlers observe it: the method and the
`Authorization` header value (empty string when the header is missing). -/
structure HttpRequest where
  method : String
  authorization : String
deriving DecidableEq, Repr

/-- A handler outcome: an `http.Error` rejection with its body text and status code,
or the marker that the handler body past the two checks was reached. -/
inductive HandlerResponse where
  | httpError (body : String) (code : Nat)
  | handlerBody
deriving DecidableEq, Repr

/-- The `/health` handler (src/main.go lines 405-431): first the method check
(non-GET gives 405), then the exact-match shared-secret check (mismatch gives 401
with the generic body `"Unauthorized"`), then the body runs. The handler mutates no
registry state on any path. -/
def healthHandler (apikey : String) (r : HttpRequest) : HandlerResponse :=
  if r.method ≠ "GET" then .httpError "Method not allowed" 405
  else if r.authorization ≠ "apikey " ++ apikey then .httpError "Unauthorized" 401
  else .handlerBody

/-- The `/reloadconfig` handler (src/main.go lines 432-452): first the method check
(non-POST gives 405), then the same auth check, then the body calls
`initializeActiveMQConnection`. Returns the response together with the registry
after the call. -/
def reloadConfigHandler (apikey : String) (read : ReadResult)
    (unmarshal : String → UnmarshalResult) (connect : ActiveMQConfig → Bool)
    (registry : List ActiveMQ) (r : HttpRequest) :
    HandlerResponse × List ActiveMQ :=
  if r.method ≠ "POST" then (.httpError "Method not allowed" 405, registry)
  else if r.authorization ≠ "apikey " ++ apikey then (.httpError "Unauthorized" 401, registry)
  else (.handlerBody, initializeActiveMQConnection read unmarshal connect registry)

/-! ## Port selection (src/main.go lines 461-470) -/

/-- The body of `getAvailablePort`'s `for` loop, compiled to recursion on the number
of ports still to try; `free p` models `net.Listen("tcp", ":p")` succeeding. -/
def scanPorts (free : Nat → Bool) (minPort maxPort : Nat) : Nat → Nat → Except String Nat
  | _, 0 =>
      .error ("no available port found in the range "
        ++ toString minPort ++ "-" ++ toString maxPort)
  | port, remaining + 1 =>
      if free port then .ok port
      else scanPorts free minPort maxPort (port + 1) remaining

/-- `getAvailablePort` (src/main.go lines 461-470): scans ports from `minPort` to
`maxPort` inclusive in increasing order, returns the first free port, and the
formatted "no available port" error when the whole range is occupied (also when
`minPort > maxPort`, where the loop body never runs). -/
def getAvailablePort (free : Nat → Bool) (minPort maxPort : Nat) : Except String Nat :=
  scanPorts free minPort maxPort minPort (maxPort + 1 - minPort)

/-! ## Shutdown sequence (src/main.go lines 228-281) -/

/-- The kind of context value handed to `http.Server.Shutdown`: `background` is
`context.Background()`, which carries no deadline and no cancellation (unbounded);
`withDeadline` stands for a context with a deadline or timeout (bounded). -/
inductive GoContext where
  | background
  | withDeadline
deriving DecidableEq, Repr

/-- The externally visible effects of `waitForTerminationSignal` after the signal is
received. Logging is not modelled. `shutdownMonitor` carries the kind of context
passed to `Shutdown`; `exitProcess` carries the `os.Exit` code. -/
inductive ShutdownEvent where
  | closeDB
  | disconnectDocDB
  | stopMessageBus
  | postCloseNotice
  | spawnAsyncTeardown
  | shutdownMonitor (ctx : GoContext)
  | sleepGrace
  | exitProcess (code : Nat)
deriving DecidableEq, Repr

/-- `waitForTerminationSignal` (src/main.go lines 228-281), as the ordered sequence of
effects performed on the signal-handling thread once the signal arrives. The four
booleans say whether the corresponding handle (`DB`, `DocDB`, message-bus client,
`monitorServer`) is non-nil. The close-notification POST is performed exactly once;
its failure is only logged (lines 258-260), which is not an event here. The
`go func` at lines 261-273, which repeats the DB/doc-store/message-bus teardown
asynchronously, appears as the `spawnAsyncTeardown` event at its program point. The
monitor shutdown at line 276 is `monitorServer.Shutdown(context.Background())`, so
its event carries `GoContext.background`. -/
def waitForTerminationSignalTrace (dbPresent docPresent busPresent monitorPresent : Bool) :
    List ShutdownEvent :=
  (if dbPresent then [ShutdownEvent.closeDB] else []) ++
  (if docPresent then [ShutdownEvent.disconnectDocDB] else []) ++
  (if busPresent then [ShutdownEvent.stopMessageBus] else []) ++
  [ShutdownEvent.postCloseNotice, ShutdownEvent.spawnAsyncTeardown] ++
  (if monitorPresent then [ShutdownEvent.shutdownMonitor .background] else []) ++
  [ShutdownEvent.sleepGrace, ShutdownEvent.exitProcess 0]

/-- The shutdown sequence claimed by the specification: close the database pool,
disconnect the document store, stop the message bus, send the close notification,
shut down the monitor server with a bounded context, pause, exit with code 0 — and
nothing else. -/
def claimedShutdownSequence : List ShutdownEvent :=
  [.closeDB, .disconnectDocDB, .stopMessageBus, .postCloseNotice,
   .shutdownMonitor .withDeadline, .sleepGrace, .exitProcess 0]

/-! ## Startup ordering (src/main.go lines 40-121) -/

/-- The startup steps of `main` relevant to the ordering claim, each abstracted to one
event: the sequential resource initialization (database, document store, message bus;
lines 65-84) and the first registry-relevant step of each of the three goroutines
spawned at lines 92-113. -/
inductive MainEvent where
  | resourceInitDone
  | registryFirstPass
  | monitorServerStart
  | heartbeatFirstTick
deriving DecidableEq, Repr

/-- The three tasks `main` spawns with `go` after resource initialization, in spawn
order: the ActiveMQ connection setup, the monitor server, and the heartbeat loop. -/
def spawnedTaskEvents : List MainEvent :=
  [.registryFirstPass, .monitorServerStart, .heartbeatFirstTick]

/-- A possible execution order of `main`'s startup: the sequential prefix completes on
the main thread before any `go` statement runs, so `resourceInitDone` comes first;
the three spawned goroutines are unsynchronized (the `WaitGroup` is only waited on,
never signalled before the loops run), so their first steps may interleave in any
order. -/
def IsMainSchedule (t : List MainEvent) : Prop :=
  ∃ rest, t = MainEvent.resourceInitDone :: rest ∧ rest.Perm spawnedTaskEvents

/-- Index of the first occurrence of an event in a schedule (length when absent). -/
def eventIndex : List MainEvent → MainEvent → Nat
  | [], _ => 0
  | x :: rest, e => if e = x then 0 else eventIndex rest e + 1

/-- `a` happens before `b` in schedule `t`. -/
def Precedes (a b : MainEvent) (t : List MainEvent) : Prop :=
  eventIndex t a < eventIndex t b

/-! ## Database initialization (src/main.go lines 283-342) -/

/-- A configuration value as Go's JSON-decoded `interface\x7b\x7d` presents it to
`initializeDatabase`: JSON numbers decode to `float64` (modelled as a rational),
strings to `string`; any other shape is collapsed to `other`, since the function
only type-asserts against `string` and `float64`. -/
inductive ConfigValue where
  | str (s : String)
  | num (q : ℚ)
  | other
deriving DecidableEq

/-- Go's conversion `int(v)` on an in-range `float64`: truncation toward zero. -/
def goTruncToInt (q : ℚ) : Int := if 0 ≤ q then ⌊q⌋ else ⌈q⌉

/-- The connection-pool settings `initializeDatabase` stores into the `dbconn`
package before calling `ConnectDB`. -/
structure DatabaseSettings where
  databaseType : String
  databaseConnection : String
  maxIdleConns : Int
  maxOpenConns : Int
deriving DecidableEq

/-- Outcome of `initializeDatabase` up to the external `ConnectDB` call: `nilDB` when
the `type` or `connection` key is absent (early `return nil`, lines 297-306);
`panicked` when a present `type` or `connection` value fails its `.(string)` type
assertion (lines 309-310); otherwise the stored settings. -/
inductive DBInitResult where
  | nilDB
  | panicked
  | settings (s : DatabaseSettings)
deriving DecidableEq

/-- `initializeDatabase` (src/main.go lines 283-342) up to the external `ConnectDB`
call, over the `DatabaseConfig` map. `maxidleconns` defaults to 5 and `maxopenconns`
to 10 when the key is absent or its value is not a `float64`; a `float64` value is
truncated with `int(v)` (lines 313-332). -/
def initializeDatabase (cfg : String → Option ConfigValue) : DBInitResult :=
  match cfg "type" with
  | none => .nilDB
  | some tv =>
    match cfg "connection" with
    | none => .nilDB
    | some cv =>
      match tv, cv with
      | .str t, .str c =>
          let maxIdle : Int :=
            match cfg "maxidleconns" with
            | none => 5
            | some (.num q) => goTruncToInt q
            | some _ => 5
          let maxOpen : Int :=
            match cfg "maxopenconns" with
            | none => 10
            | some (.num q) => goTruncToInt q
            | some _ => 10
          .settings ⟨t, c, maxIdle, maxOpen⟩
      | _, _ => .panicked

/-- The `maxIdleConns` stored by a database initialization outcome, when one was
stored. -/
def maxIdleOf : DBInitResult → Option Int
  | .settings s => some s.maxIdleConns
  | _ => none

/-- The `maxOpenConns` stored by a database initialization outcome, when one was
stored. -/
def maxOpenOf : DBInitResult → Option Int
  | .settings s => some s.maxOpenConns
  | _ => none

/-! ## Helper lemmas about the status loop -/

theorem serviceStatusLoop_okCount (l : List ActiveMQ) :
    ∀ (m : GoMap) (a b : Nat), (serviceStatusLoop l m a b).2.1 = a + liveCount l := by
  induction l with
  | nil => intro m a b; simp [serviceStatusLoop, liveCount]
  | cons c rest ih =>
    intro m a b
    cases h : c.connPresent <;>
      simp [serviceStatusLoop, h, ih, liveCount, List.countP_cons]
    all_goals omega

theorem serviceStatusLoop_unavailableCount (l : List ActiveMQ) :
    ∀ (m : GoMap) (a b : Nat), (serviceStatusLoop l m a b).2.2 = b + deadCount l := by
  induction l with
  | nil => intro m a b; simp [serviceStatusLoop, deadCount]
  | cons c rest ih =>
    intro m a b
    cases h : c.connPresent <;>
      simp [serviceStatusLoop, h, ih, deadCount, List.countP_cons]
    all_goals omega

theorem liveCount_add_deadCount (l : List ActiveMQ) :
    liveCount l + deadCount l = l.length := by
  induction l with
  | nil => rfl
  | cons c rest ih =>
    cases h : c.connPresent <;>
      simp [liveCount, deadCount, List.countP_cons, h] at * <;> omega

theorem serviceStatusLoop_map_notMem (l : List ActiveMQ) :
    ∀ (m : GoMap) (a b : Nat) (k : String), k ∉ l.map ActiveMQ.host →
      (serviceStatusLoop l m a b).1 k = m k := by
  induction l with
  | nil => intro m a b k _; rfl
  | cons c rest ih =>
    intro m a b k hk
    simp only [List.map_cons, List.mem_cons, not_or] at hk
    cases h : c.connPresent <;>
      · simp only [serviceStatusLoop, h, if_pos, if_neg, Bool.false_eq_true,
          if_false, if_true]
        rw [ih _ _ _ _ hk.2]
        simp [mapSet, hk.1]

theorem serviceStatusLoop_map_mem (l : List ActiveMQ) :
    ∀ (m : GoMap) (a b : Nat) (c : ActiveMQ), c ∈ l → (l.map ActiveMQ.host).Nodup →
      (serviceStatusLoop l m a b).1 c.host = some (.bool c.connPresent) := by
  induction l with
  | nil => intro m a b c hc _; cases hc
  | cons d rest ih =>
    intro m a b c hc hnodup
    simp only [List.map_cons, List.nodup_cons] at hnodup
    rcases List.mem_cons.mp hc with hcd | hcrest
    · subst hcd
      cases h : c.connPresent <;>
        · simp only [serviceStatusLoop, h, Bool.false_eq_true, if_false, if_true]
          rw [serviceStatusLoop_map_notMem rest _ _ _ _ hnodup.1]
          simp [mapSet, h]
    · cases h : d.connPresent <;>
        · simp only [serviceStatusLoop, h, Bool.false_eq_true, if_false, if_true]
          exact ih _ _ _ _ hcrest hnodup.2

/-- The `"OverallStatus"` entry of the result of `CheckServiceStatus`, expressed
through the two counters. -/
theorem CheckServiceStatus_overall (reg : List ActiveMQ) :
    (CheckServiceStatus reg).1 "OverallStatus"
      = some (.status
          (if liveCount reg = 0 then .statusUnavailable
           else if deadCount reg > 0 ∧ liveCount reg > 0 then .statusPartlyAvail
           else .statusOK)) := by
  simp only [CheckServiceStatus]
  rw [serviceStatusLoop_okCount, serviceStatusLoop_unavailableCount]
  simp [mapSet]

theorem CheckServiceStatus_host (reg : List ActiveMQ) (c : ActiveMQ)
    (hc : c ∈ reg) (hnodup : (reg.map ActiveMQ.host).Nodup)
    (hkey : "OverallStatus" ∉ reg.map ActiveMQ.host) :
    (CheckServiceStatus reg).1 c.host = some (.bool c.connPresent) := by
  have hne : c.host ≠ "OverallStatus" := by
    intro h
    exact hkey (h ▸ List.mem_map_of_mem ActiveMQ.host hc)
  simp only [CheckServiceStatus, mapSet, if_neg hne]
  exact serviceStatusLoop_map_mem reg _ _ _ _ hc hnodup

/-! ## Helper lemmas about registry setup -/

theorem foldl_append_singleton (connect : ActiveMQConfig → Bool) (l : List ActiveMQConfig) :
    ∀ acc : List ActiveMQ,
      l.foldl (fun a cfg => a ++ [⟨cfg.host, connect cfg⟩]) acc
        = acc ++ l.map (fun cfg => ⟨cfg.host, connect cfg⟩) := by
  induction l with
  | nil => intro acc; simp
  | cons cfg rest ih => intro acc; simp [ih]

theorem initializeActiveMQConnection_readOk (contents : String)
    (unmarshal : String → UnmarshalResult) (connect : ActiveMQConfig → Bool)
    (registry : List ActiveMQ) :
    initializeActiveMQConnection (.readOk contents) unmarshal connect registry
      = registry ++ (unmarshal contents).value.activeMQs.map
          (fun cfg => ⟨cfg.host, connect cfg⟩) := by
  simp only [initializeActiveMQConnection]
  exact foldl_append_singleton connect _ registry

/-! ## Helper lemmas about port scanning -/

theorem scanPorts_free (free : Nat → Bool) (minPort maxPort : Nat) :
    ∀ (remaining port p : Nat), port ≤ p → p < port + remaining → free p = true →
      (∀ q, port ≤ q → q < p → free q = false) →
      scanPorts free minPort maxPort port remaining = .ok p := by
  intro remaining
  induction remaining with
  | zero => intro port p h1 h2 _ _; exfalso; omega
  | succ n ih =>
    intro port p h1 h2 hfree hmin
    by_cases hp : port = p
    · subst hp; simp [scanPorts, hfree]
    · have hlt : port < p := lt_of_le_of_ne h1 hp
      have hfp : free port = false := hmin port le_rfl hlt
      simp only [scanPorts, hfp, Bool.false_eq_true, if_false]
      exact ih (port + 1) p (by omega) (by omega) hfree
        (fun q hq1 hq2 => hmin q (by omega) hq2)

theorem scanPorts_exhausted (free : Nat → Bool) (minPort maxPort : Nat) :
    ∀ (remaining port : Nat), (∀ q, port ≤ q → q < port + remaining → free q = false) →
      scanPorts free minPort maxPort port remaining
        = .error ("no available port found in the range "
            ++ toString minPort ++ "-" ++ toString maxPort) := by
  intro remaining
  induction remaining with
  | zero => intro port _; rfl
  | succ n ih =>
    intro port hall
    have h0 : free port = false := hall port le_rfl (by omega)
    simp only [scanPorts, h0, Bool.false_eq_true, if_false]
    exact ih (port + 1) (fun q hq1 hq2 => hall q (by omega) (by omega))

/-! ## Claim theorems -/

/-- C1 counterexample: on the empty broker registry, `CheckServiceStatus` returns
`OverallStatus = Unavailable`, not `OK` as the claim states — the `OKCount == 0`
branch (src/main.go line 173) also covers the empty registry. -/
theorem C1_counterexample :
    (CheckServiceStatus []).1 "OverallStatus" = some (.status .statusUnavailable) ∧
    ¬ (CheckServiceStatus []).1 "OverallStatus" = some (.status .statusOK) := by
  constructor
  · decide
  · decide

/-- C1 amended: for an empty broker registry (N = 0 entries), `CheckServiceStatus`
returns `OverallStatus = Unavailable`. -/
theorem C1_empty_registry_unavailable :
    (CheckServiceStatus []).1 "OverallStatus" = some (.status .statusUnavailable) := by
  decide

/-- C2: for every non-empty registry whose broker hosts are pairwise distinct and
none of which is the literal key "OverallStatus", `CheckServiceStatus` reports
Unavailable iff no entry has a connection handle, PartiallyAvailable iff some but
not all entries do, OK iff all do, and the result maps each broker host to its
liveness (handle present). -/
theorem C2_status_aggregation (reg : List ActiveMQ) (hne : reg ≠ [])
    (hnodup : (reg.map ActiveMQ.host).Nodup)
    (hkey : "OverallStatus" ∉ reg.map ActiveMQ.host) :
    ((CheckServiceStatus reg).1 "OverallStatus" = some (.status .statusUnavailable)
        ↔ liveCount reg = 0) ∧
    ((CheckServiceStatus reg).1 "OverallStatus" = some (.status .statusPartlyAvail)
        ↔ 0 < liveCount reg ∧ liveCount reg < reg.length) ∧
    ((CheckServiceStatus reg).1 "OverallStatus" = some (.status .statusOK)
        ↔ liveCount reg = reg.length) ∧
    ∀ c ∈ reg, (CheckServiceStatus reg).1 c.host = some (.bool c.connPresent) := by
  have hov := CheckServiceStatus_overall reg
  have hsum := liveCount_add_deadCount reg
  have hpos : 0 < reg.length := List.length_pos.mpr hne
  refine ⟨?_, ?_, ?_, fun c hc => CheckServiceStatus_host reg c hc hnodup hkey⟩ <;>
  · rw [hov]
    simp only [Option.some.injEq, MVal.status.injEq]
    split_ifs with h1 h2 <;> simp_all <;> omega

/-- C3: the reload path (`initializeActiveMQConnection`, reached from
`POST /reloadconfig`) appends one new `BrokerConnection` per declared broker to the
existing registry without closing or replacing any existing entry, and two
invocations against a configuration file declaring 2 brokers yield a registry of 4
entries. -/
theorem C3_reload_additive (contents : String) (unmarshal : String → UnmarshalResult)
    (connect : ActiveMQConfig → Bool) (registry : List ActiveMQ)
    (h2 : (unmarshal contents).value.activeMQs.length = 2) :
    initializeActiveMQConnection (.readOk contents) unmarshal connect registry
      = registry ++ (unmarshal contents).value.activeMQs.map
          (fun cfg => ⟨cfg.host, connect cfg⟩) ∧
    (initializeActiveMQConnection (.readOk contents) unmarshal connect
        (initializeActiveMQConnection (.readOk contents) unmarshal connect [])).length
      = 4 := by
  refine ⟨initializeActiveMQConnection_readOk _ _ _ _, ?_⟩
  simp [initializeActiveMQConnection_readOk, h2]

/-- C3 witness: a configuration with two declared brokers, loaded twice from the
empty registry, produces 4 entries. -/
theorem C3_reload_additive_witness :
    (initializeActiveMQConnection (.readOk "activemqconfig")
        (fun _ => ⟨none, ⟨"key", [⟨"broker1"⟩, ⟨"broker2"⟩]⟩⟩) (fun _ => true)
        (initializeActiveMQConnection (.readOk "activemqconfig")
          (fun _ => ⟨none, ⟨"key", [⟨"broker1"⟩, ⟨"broker2"⟩]⟩⟩) (fun _ => true)
          [])).length = 4 :=
  (C3_reload_additive "activemqconfig"
    (fun _ => ⟨none, ⟨"key", [⟨"broker1"⟩, ⟨"broker2"⟩]⟩⟩) (fun _ => true) [] rfl).2

/-- C4 counterexample: parsing can fail while still delivering decoded brokers
(Go's `json.Unmarshal` reports a type error but populates the other fields, e.g.
for a file whose `ApiKey` is a number while `ActiveMQs` holds one valid broker);
since the unmarshal error is only logged (src/main.go line 212, no return), the
loop still appends, so the registry is not left as it was. -/
theorem C4_counterexample :
    initializeActiveMQConnection (.readOk "activemqconfig")
      (fun _ => ⟨some "json: cannot unmarshal number into ApiKey",
                 ⟨"", [⟨"broker1"⟩]⟩⟩)
      (fun _ => false) [] ≠ [] := by
  decide

/-- C4 amended: if reading the broker-configuration artifact fails, the registry is
left exactly as before and no entry is appended; if parsing fails, the error is only
logged and the construction loop still runs over the (possibly partially) decoded
configuration, appending one entry per decoded broker — the registry is unchanged
on parse failure exactly when the decoded value declares no brokers. -/
theorem C4_failure_handling (unmarshal : String → UnmarshalResult)
    (connect : ActiveMQConfig → Bool) (registry : List ActiveMQ) :
    initializeActiveMQConnection .readError unmarshal connect registry = registry ∧
    ∀ contents,
      initializeActiveMQConnection (.readOk contents) unmarshal connect registry
        = registry ++ (unmarshal contents).value.activeMQs.map
            (fun cfg => ⟨cfg.host, connect cfg⟩) :=
  ⟨rfl, fun contents =>
    initializeActiveMQConnection_readOk contents unmarshal connect registry⟩

/-- C5: for both monitor endpoints, a request with the wrong method receives 405
regardless of the Authorization header; a request with the correct method but an
Authorization header not exactly equal to "apikey " ++ key receives 401 with the
generic body "Unauthorized" and leaves the registry unchanged; and the handler body
is reached exactly when both checks pass. -/
theorem C5_method_then_auth (apikey : String) (r : HttpRequest) (read : ReadResult)
    (unmarshal : String → UnmarshalResult) (connect : ActiveMQConfig → Bool)
    (registry : List ActiveMQ) :
    (r.method ≠ "GET" → healthHandler apikey r = .httpError "Method not allowed" 405) ∧
    (r.method = "GET" → r.authorization ≠ "apikey " ++ apikey →
        healthHandler apikey r = .httpError "Unauthorized" 401) ∧
    (healthHandler apikey r = .handlerBody ↔
        r.method = "GET" ∧ r.authorization = "apikey " ++ apikey) ∧
    (r.method ≠ "POST" →
        reloadConfigHandler apikey read unmarshal connect registry r
          = (.httpError "Method not allowed" 405, registry)) ∧
    (r.method = "POST" → r.authorization ≠ "apikey " ++ apikey →
        reloadConfigHandler apikey read unmarshal connect registry r
          = (.httpError "Unauthorized" 401, registry)) ∧
    ((reloadConfigHandler apikey read unmarshal connect registry r).1 = .handlerBody ↔
        r.method = "POST" ∧ r.authorization = "apikey " ++ apikey) := by
  unfold healthHandler reloadConfigHandler
  by_cases hg : r.method = "GET" <;> by_cases hp : r.method = "POST" <;>
    by_cases ha : r.authorization = "apikey " ++ apikey <;>
      simp_all

/-- C5 witness: a POST to /health gets 405 despite a valid key; a GET with a wrong
key gets 401; a badly authenticated POST to /reloadconfig leaves the registry
unchanged. -/
theorem C5_method_then_auth_witness :
    healthHandler "secret" ⟨"POST", "apikey secret"⟩
      = .httpError "Method not allowed" 405 ∧
    healthHandler "secret" ⟨"GET", "apikey wrong"⟩
      = .httpError "Unauthorized" 401 ∧
    reloadConfigHandler "secret" .readError (fun _ => ⟨none, ⟨"", []⟩⟩) (fun _ => true)
        [⟨"b", true⟩] ⟨"POST", "bad"⟩
      = (.httpError "Unauthorized" 401, [⟨"b", true⟩]) :=
  ⟨(C5_method_then_auth "secret" ⟨"POST", "apikey secret"⟩ .readError
      (fun _ => ⟨none, ⟨"", []⟩⟩) (fun _ => true) []).1 (by decide),
   (C5_method_then_auth "secret" ⟨"GET", "apikey wrong"⟩ .readError
      (fun _ => ⟨none, ⟨"", []⟩⟩) (fun _ => true) []).2.1 rfl (by decide),
   (C5_method_then_auth "secret" ⟨"POST", "bad"⟩ .readError
      (fun _ => ⟨none, ⟨"", []⟩⟩) (fun _ => true) [⟨"b", true⟩]).2.2.2.2.1 rfl
     (by decide)⟩

/-- C6: over the inclusive range [8800, 8900], `getAvailablePort` returns the
smallest free port (the first free port of the sequential scan), and returns the
distinct "no available port" error — not a port value — when every port in the
range is occupied. -/
theorem C6_port_selection (free : Nat → Bool) :
    (∀ p, 8800 ≤ p → p ≤ 8900 → free p = true →
        (∀ q, 8800 ≤ q → q < p → free q = false) →
        getAvailablePort free 8800 8900 = .ok p) ∧
    ((∀ p, 8800 ≤ p → p ≤ 8900 → free p = false) →
        getAvailablePort free 8800 8900
          = .error "no available port found in the range 8800-8900") := by
  constructor
  · intro p h1 h2 hfree hmin
    unfold getAvailablePort
    exact scanPorts_free free 8800 8900 (8900 + 1 - 8800) 8800 p h1 (by omega) hfree
      (fun q hq1 hq2 => hmin q hq1 hq2)
  · intro hall
    unfold getAvailablePort
    have h := scanPorts_exhausted free 8800 8900 (8900 + 1 - 8800) 8800
      (fun q hq1 hq2 => hall q hq1 (by omega))
    exact h

/-- C6 witness: with only port 8805 free the scan returns 8805; with every port
occupied it returns the formatted error. -/
theorem C6_port_selection_witness :
    getAvailablePort (fun q => q == 8805) 8800 8900 = .ok 8805 ∧
    getAvailablePort (fun _ => false) 8800 8900
      = .error "no available port found in the range 8800-8900" :=
  ⟨(C6_port_selection (fun q => q == 8805)).1 8805 (by decide) (by decide) (by decide)
      (fun q hq1 hq2 => beq_eq_false_iff_ne.mpr (Nat.ne_of_lt hq2)),
   (C6_port_selection (fun _ => false)).2 (fun p h1 h2 => rfl)⟩

/-- C7 counterexample: the shutdown path does not perform exactly the claimed
sequence — between the close-notification POST and the monitor shutdown it also
spawns a duplicate asynchronous teardown of the database, document-store and
message-bus handles (src/main.go lines 261-273), and the monitor shutdown it does
perform uses `context.Background()`, so no bounded-context shutdown occurs anywhere
in the trace (src/main.go line 276). -/
theorem C7_counterexample :
    waitForTerminationSignalTrace true true true true ≠ claimedShutdownSequence ∧
    ShutdownEvent.shutdownMonitor .withDeadline
      ∉ waitForTerminationSignalTrace true true true true := by
  constructor
  · decide
  · decide

/-- C7 amended: on the termination signal, with all handles present, the shutdown
performs in order: close the database pool, disconnect the document-store client,
stop the message-bus client, send one best-effort close-notification POST (failure
logged, not retried), spawn the duplicate asynchronous teardown of the same three
handles, shut down the MonitorServer with `context.Background()` — an unbounded
context with no deadline, not the bounded context the claim states — pause for the
fixed grace period, and terminate with exit code 0. -/
theorem C7_shutdown_sequence :
    waitForTerminationSignalTrace true true true true
      = [.closeDB, .disconnectDocDB, .stopMessageBus, .postCloseNotice,
         .spawnAsyncTeardown, .shutdownMonitor .background, .sleepGrace,
         .exitProcess 0] := by
  rfl

/-- C8 counterexample: the schedule in which the heartbeat goroutine performs its
first tick before the connection-registry goroutine runs its first pass is a valid
execution of `main` (the three goroutines are spawned with no synchronization), so
the claimed ordering between them does not hold. -/
theorem C8_counterexample :
    IsMainSchedule
      [.resourceInitDone, .heartbeatFirstTick, .registryFirstPass, .monitorServerStart] ∧
    ¬ Precedes .registryFirstPass .heartbeatFirstTick
      [.resourceInitDone, .heartbeatFirstTick, .registryFirstPass, .monitorServerStart] := by
  refine ⟨⟨[.heartbeatFirstTick, .registryFirstPass, .monitorServerStart], rfl, ?_⟩, ?_⟩
  · decide
  · unfold Precedes
    decide

/-- C8 amended: resource initialization fully completes before the first step of
each of the three spawned tasks (registry setup, monitor server, heartbeat loop) in
every valid schedule; the registry first pass and the heartbeat first tick have no
ordering between them — valid schedules exist with either one first. -/
theorem C8_startup_ordering (t : List MainEvent) (h : IsMainSchedule t) :
    Precedes .resourceInitDone .registryFirstPass t ∧
    Precedes .resourceInitDone .monitorServerStart t ∧
    Precedes .resourceInitDone .heartbeatFirstTick t ∧
    (∃ t1, IsMainSchedule t1 ∧ Precedes .registryFirstPass .heartbeatFirstTick t1) ∧
    (∃ t2, IsMainSchedule t2 ∧ Precedes .heartbeatFirstTick .registryFirstPass t2) := by
  obtain ⟨rest, rfl, hperm⟩ := h
  refine ⟨?_, ?_, ?_, ?_, ?_⟩
  · unfold Precedes
    simp [eventIndex]
  · unfold Precedes
    simp [eventIndex]
  · unfold Precedes
    simp [eventIndex]
  · refine ⟨.resourceInitDone :: spawnedTaskEvents,
      ⟨spawnedTaskEvents, rfl, List.Perm.refl _⟩, ?_⟩
    unfold Precedes
    decide
  · refine ⟨[.resourceInitDone, .heartbeatFirstTick, .registryFirstPass,
        .monitorServerStart],
      ⟨[.heartbeatFirstTick, .registryFirstPass, .monitorServerStart], rfl, by decide⟩, ?_⟩
    unfold Precedes
    decide

/-- C8 witness: the spawn-order schedule is valid and in it resource
initialization precedes the registry first pass. -/
theorem C8_startup_ordering_witness :
    Precedes .resourceInitDone .registryFirstPass
      (.resourceInitDone :: spawnedTaskEvents) :=
  (C8_startup_ordering (.resourceInitDone :: spawnedTaskEvents)
    ⟨spawnedTaskEvents, rfl, List.Perm.refl _⟩).1

/-- C9: during database-pool initialization (with the `type` and `connection` keys
present as strings, so the function reaches the limit assignments), `maxidleconns`
defaults to 5 and `maxopenconns` to 10 whenever the corresponding key is absent or
its value is not a number; when the value is a number, it is used truncated to an
integer. -/
theorem C9_db_pool_limits (cfg : String → Option ConfigValue) (t c : String)
    (ht : cfg "type" = some (.str t)) (hc : cfg "connection" = some (.str c)) :
    (cfg "maxidleconns" = none → maxIdleOf (initializeDatabase cfg) = some 5) ∧
    (∀ s, cfg "maxidleconns" = some (.str s) →
        maxIdleOf (initializeDatabase cfg) = some 5) ∧
    (cfg "maxidleconns" = some .other → maxIdleOf (initializeDatabase cfg) = some 5) ∧
    (∀ q, cfg "maxidleconns" = some (.num q) →
        maxIdleOf (initializeDatabase cfg) = some (goTruncToInt q)) ∧
    (cfg "maxopenconns" = none → maxOpenOf (initializeDatabase cfg) = some 10) ∧
    (∀ s, cfg "maxopenconns" = some (.str s) →
        maxOpenOf (initializeDatabase cfg) = some 10) ∧
    (cfg "maxopenconns" = some .other → maxOpenOf (initializeDatabase cfg) = some 10) ∧
    (∀ q, cfg "maxopenconns" = some (.num q) →
        maxOpenOf (initializeDatabase cfg) = some (goTruncToInt q)) := by
  refine ⟨?_, ?_, ?_, ?_, ?_, ?_, ?_, ?_⟩ <;>
    · intros
      simp_all [initializeDatabase, maxIdleOf, maxOpenOf]

/-- C9 witness: a config where `maxidleconns` is the string "7" (malformed) and
`maxopenconns` is the number 12.5 yields limits 5 and 12. -/
theorem C9_db_pool_limits_witness :
    maxIdleOf (initializeDatabase (fun k =>
        if k = "type" then some (.str "mysql")
        else if k = "connection" then some (.str "dsn")
        else if k = "maxidleconns" then some (.str "7")
        else if k = "maxopenconns" then some (.num (25 / 2))
        else none)) = some 5 ∧
    maxOpenOf (initializeDatabase (fun k =>
        if k = "type" then some (.str "mysql")
        else if k = "connection" then some (.str "dsn")
        else if k = "maxidleconns" then some (.str "7")
        else if k = "maxopenconns" then some (.num (25 / 2))
        else none)) = some 12 := by
  have h := C9_db_pool_limits (fun k =>
        if k = "type" then some (.str "mysql")
        else if k = "connection" then some (.str "dsn")
        else if k = "maxidleconns" then some (.str "7")
        else if k = "maxopenconns" then some (.num (25 / 2))
        else none) "mysql" "dsn" rfl rfl
  refine ⟨h.2.1 "7" rfl, ?_⟩
  rw [h.2.2.2.2.2.2.2 (25 / 2) rfl]
  norm_num [goTruncToInt]

/-- C10: `CheckServiceStatus` returns a nil error for every registry state
(src/main.go line 181 returns the literal `nil`), so the error-handling branches in
its callers never run. -/
theorem C10_error_always_nil (reg : List ActiveMQ) :
    (CheckServiceStatus reg).2 = none := rfl

/-- C2 witness: the three-broker scenario with hostA and hostB live and hostC dead
reports PartiallyAvailable and maps hostC to false. -/
theorem C2_status_aggregation_witness :
    (CheckServiceStatus [⟨"hostA", true⟩, ⟨"hostB", true⟩, ⟨"hostC", false⟩]).1
        "OverallStatus" = some (.status .statusPartlyAvail) ∧
    (CheckServiceStatus [⟨"hostA", true⟩, ⟨"hostB", true⟩, ⟨"hostC", false⟩]).1
        "hostC" = some (.bool false) := by
  have h := C2_status_aggregation
    [⟨"hostA", true⟩, ⟨"hostB", true⟩, ⟨"hostC", false⟩]
    (by decide) (by decide) (by decide)
  exact ⟨h.2.1.mpr (by decide), h.2.2.2 ⟨"hostC", false⟩ (by decide)⟩
